import Mathlib

/-!
Shallow embedding of the contribution-ledger and moderation-pipeline core of
the repository (PresaleScreen in src/unnamed/part_000 and AdminScreen in
src/components/AdminScreen.tsx), together with theorems settling the frozen
claims about it.

String primitives mirror the JavaScript operations used by the source:
toLowerCase (ASCII range), trim, replace with a one-character string pattern
(which replaces only the first occurrence), startsWith, and the Solana
address regular expression. Amounts are modelled as rationals; the source
performs no arithmetic on them in the modelled paths (they are only stored,
selected and compared).
-/

/-- ASCII lowercasing of one character, as JavaScript toLowerCase acts on
the ASCII range used by this application. -/
def lowChar (c : Char) : Char :=
  if 65 ≤ c.toNat ∧ c.toNat ≤ 90 then Char.ofNat (c.toNat + 32) else c

/-- JavaScript String.prototype.toLowerCase on the ASCII range. -/
def lowerStr (s : String) : String := ⟨s.data.map lowChar⟩

/-- Whitespace characters stripped by JavaScript String.prototype.trim. -/
def isWsChar (c : Char) : Bool :=
  c = ' ' || c = '\t' || c = '\n' || c = '\r'

/-- JavaScript String.prototype.trim. -/
def trimStr (s : String) : String :=
  ⟨((s.data.dropWhile isWsChar).reverse.dropWhile isWsChar).reverse⟩

/-- Remove the first occurrence of the identity marker character, as the
JavaScript call replace with a string pattern removes only the first
occurrence. -/
def removeAtFirst : List Char → List Char
  | [] => []
  | c :: cs => if c = '@' then cs else c :: removeAtFirst cs

/-- The source expression s.replace of the marker by the empty string. -/
def stripMarker (s : String) : String := ⟨removeAtFirst s.data⟩

/-- JavaScript startsWith applied to the identity marker. -/
def startsMarker (s : String) : Bool :=
  match s.data with
  | [] => false
  | c :: _ => c = '@'

/-- Membership in the character class of SOLANA_ADDRESS_REGEX,
the base-58 alphabet without the ambiguous characters. -/
def base58Char (c : Char) : Bool :=
  (decide ('1' ≤ c) && decide (c ≤ '9')) ||
  (decide ('A' ≤ c) && decide (c ≤ 'H')) ||
  (decide ('J' ≤ c) && decide (c ≤ 'N')) ||
  (decide ('P' ≤ c) && decide (c ≤ 'Z')) ||
  (decide ('a' ≤ c) && decide (c ≤ 'k')) ||
  (decide ('m' ≤ c) && decide (c ≤ 'z'))

/-- The test of SOLANA_ADDRESS_REGEX: 32 to 44 characters, all from the
restricted base-58 alphabet. -/
def isSolanaAddress (s : String) : Bool :=
  decide (32 ≤ s.data.length) && decide (s.data.length ≤ 44) &&
    s.data.all base58Char

/-- One entry of the client-held ledger (the Submission type of the source:
id, missionId, proofUrl, amount, status, timestamp). -/
structure Submission where
  id : String
  missionId : String
  proofUrl : String
  amount : ℚ
  status : String
  timestamp : Nat
deriving DecidableEq, Repr

/-- One record of MOCK_JUNGLE_DB: recorded wallet and recorded commit cap. -/
structure JungleRecord where
  wallet : String
  commit : ℚ
deriving DecidableEq, Repr

/-- The mock database of known identities of src/unnamed/part_000. -/
def MOCK_JUNGLE_DB : List (String × JungleRecord) :=
  [("monky_king", ⟨"7xKX99kR7xKX99kR7xKX99kR7xKX99kR7xKX99kR", 10.0⟩),
   ("degen_ape", ⟨"Ape1111111111111111111111111111111111111", 5.0⟩),
   ("sol_surfer", ⟨"Surf222222222222222222222222222222222222", 2.5⟩),
   ("banana_farmer", ⟨"Farm333333333333333333333333333333333333", 0.8⟩)]

/-- JavaScript object indexing MOCK_JUNGLE_DB at a handle. -/
def jungleLookup (h : String) : Option JungleRecord :=
  (MOCK_JUNGLE_DB.find? (fun p => p.1 == h)).map Prod.snd

/-- The session user data fields read and written by the presale screen.
actualCommit is optional because it may be unset before verification;
a stored zero is falsy in the source expression that reads it. -/
structure UserData where
  handle : String
  wallet : String
  actualCommit : Option ℚ
deriving DecidableEq, Repr

/-- The two views of the presale screen. -/
inductive PresaleView
  | VERIFY
  | CONTRIBUTE
deriving DecidableEq, Repr

/-- The error notifications handleVerify can raise. -/
inductive VerifyError
  | CredentialsMissing
  | AddressFormatInvalid
  | WalletMismatch
deriving DecidableEq, Repr

/-- The component state touched by handleVerify. -/
structure PresaleState where
  view : PresaleView
  detectedCap : ℚ
  amount : ℚ
  userData : UserData
deriving DecidableEq, Repr

/-- The JavaScript expression x or-else d over an optional number, where
zero is falsy (used for userData.actualCommit or-else 0.15). -/
def orElseNum (x : Option ℚ) (d : ℚ) : ℚ :=
  match x with
  | none => d
  | some v => if v = 0 then d else v

/-- Handle normalization of handleVerify: remove the first identity marker,
trim surrounding whitespace, lowercase. -/
def normalizeHandle (s : String) : String := lowerStr (trimStr (stripMarker s))

/-- The handle stored into userData by handleVerify on success: the
normalized handle with a marker prepended when it does not already start
with one. -/
def sessionHandle (h : String) : String :=
  if startsMarker h then h else "@" ++ h

/-- The per-handle grouping key used by the ledger read and append paths:
lowercase the session handle, then remove the first marker occurrence. -/
def handleKey (h : String) : String := stripMarker (lowerStr h)

/-- The handleVerify state transition of src/unnamed/part_000. On an error
path the component state is returned untouched together with the error; on
success the view, detected cap, amount and session user data are updated as
the source does. -/
def handleVerifyStep (loginHandle loginWallet : String) (s : PresaleState) :
    PresaleState × Option VerifyError :=
  let handle := normalizeHandle loginHandle
  let wallet := trimStr loginWallet
  if handle = "" ∨ wallet = "" then (s, some .CredentialsMissing)
  else if isSolanaAddress wallet = false then (s, some .AddressFormatInvalid)
  else
    match jungleLookup handle with
    | some r =>
      if r.wallet ≠ wallet then (s, some .WalletMismatch)
      else
        ({ view := .CONTRIBUTE, detectedCap := r.commit, amount := r.commit,
           userData := { handle := sessionHandle handle, wallet := wallet,
                         actualCommit := some r.commit } }, none)
    | none =>
      let cap := orElseNum s.userData.actualCommit 0.15
      ({ view := .CONTRIBUTE, detectedCap := cap, amount := cap,
         userData := { handle := sessionHandle handle, wallet := wallet,
                       actualCommit := some cap } }, none)

/-- The initial component state: VERIFY view, detected cap defaulted from
the session or 0.15, amount 0.1, as the useState initializers set them. -/
def presaleInit (ud : UserData) : PresaleState :=
  { view := .VERIFY, detectedCap := orElseNum ud.actualCommit 0.15,
    amount := 0.1, userData := ud }

/-- The persisted ledger object: one slice of submissions per grouping key,
absent keys reading as the empty slice. -/
def LedgerStore : Type := String → List Submission

/-- JavaScript object index assignment on the persisted ledger object:
replace the slice at one key, leave every other key untouched. -/
def objSet (m : LedgerStore) (k : String) (v : List Submission) : LedgerStore :=
  fun k' => if k' = k then v else m k'

/-- The history-loading effect of src/unnamed/part_000: when the session
handle is non-empty, read the slice at the grouping key; otherwise the
in-memory history is left as it was. -/
def loadHistory (udHandle : String) (store : LedgerStore)
    (oldHist : List Submission) : List Submission :=
  if udHandle = "" then oldHist else store (handleKey udHandle)

/-- The error notifications submitTx can raise. There is no amount-range
error in the source: submitTx never validates the amount. -/
inductive SubmitError
  | WindowClosed
  | ProofInvalid
deriving DecidableEq, Repr

/-- The submitTx append of src/unnamed/part_000. Checks the countdown state
first, then the proof reference length; on success builds the PENDING
submission from the fresh id and current time, prepends it to the in-memory
history and replaces the persisted slice at the grouping key as a whole. -/
def submitTx (timeLeft txHash : String) (amount : ℚ)
    (history : List Submission) (udHandle : String) (store : LedgerStore)
    (freshId : String) (now : Nat) :
    Except SubmitError (Submission × List Submission × LedgerStore) :=
  if timeLeft = "CLOSED" then .error .WindowClosed
  else if txHash = "" ∨ txHash.length < 32 then .error .ProofInvalid
  else
    let newSub : Submission :=
      { id := freshId, missionId := "presale_contribution", proofUrl := txHash,
        amount := amount, status := "PENDING", timestamp := now }
    let newHistory := newSub :: history
    .ok (newSub, newHistory, objSet store (handleKey udHandle) newHistory)

/-- The countdown decomposition of the non-negative millisecond distance
into hours, minutes and seconds, exactly as the source computes it. -/
def tickRemaining (distance : Nat) : Nat × Nat × Nat :=
  ((distance % (1000 * 60 * 60 * 24)) / (1000 * 60 * 60),
   (distance % (1000 * 60 * 60)) / (1000 * 60),
   (distance % (1000 * 60)) / 1000)

/-- Two-digit zero padding, as padStart 2 with the zero character. -/
def pad2 (n : Nat) : String :=
  if n < 10 then "0" ++ toString n else toString n

/-- One countdown tick: the CLOSED sentinel once the deadline has passed,
otherwise the formatted hours, minutes and seconds. -/
def tickTimeLeft (now deadline : Int) : String :=
  let distance := deadline - now
  if distance < 0 then "CLOSED"
  else
    let r := tickRemaining distance.toNat
    pad2 r.1 ++ ":" ++ pad2 r.2.1 ++ ":" ++ pad2 r.2.2

/-- One document of the applications snapshot as the admin screen reads it:
an id plus an optional status field (absent or empty reads as PENDING). -/
structure AppDoc where
  id : String
  status : Option String
deriving DecidableEq, Repr

/-- The source expression r.status or-else the PENDING default, where both
a missing field and an empty string are falsy. -/
def effStatus (d : AppDoc) : String :=
  match d.status with
  | none => "PENDING"
  | some s => if s = "" then "PENDING" else s

/-- The client-side filter applied to every snapshot delivery: keep exactly
the rows whose effective status is PENDING. -/
def snapshotPending (docs : List AppDoc) : List AppDoc :=
  docs.filter (fun d => effStatus d == "PENDING")

/-- The authenticated user as the admin screen sees it: an optional email. -/
structure AuthUser where
  email : Option String
deriving DecidableEq, Repr

/-- The isAllowed check of src/components/AdminScreen.tsx: a session email
must exist and be non-empty, the configured admin email must exist and be
non-empty, and the two must agree case-insensitively. The configured email
is modelled as a parameter because its accessor lives outside src. -/
def isAllowed (authUser : Option AuthUser) (adminEmail : Option String) : Bool :=
  match authUser with
  | none => false
  | some u =>
    match u.email with
    | none => false
    | some e =>
      if e = "" then false
      else
        match adminEmail with
        | none => false
        | some a => if a = "" then false else lowerStr e = lowerStr a

/-- The four access-gate states of the admin screen render path. -/
inductive GateState
  | AUTH_PENDING
  | UNAUTHENTICATED
  | AUTHENTICATED_DENIED
  | AUTHENTICATED_ALLOWED
deriving DecidableEq, Repr

/-- The access-gate state as the render path decides it: auth not ready,
then no session, then session with non-matching email, then allowed. -/
def gateState (authReady : Bool) (authUser : Option AuthUser)
    (adminEmail : Option String) : GateState :=
  if authReady = false then .AUTH_PENDING
  else
    match authUser with
    | none => .UNAUTHENTICATED
    | some u =>
      if isAllowed (some u) adminEmail then .AUTHENTICATED_ALLOWED
      else .AUTHENTICATED_DENIED

/-- Whether the snapshot-subscription effect issues the subscription: the
effect returns early, with the queue cleared, unless auth is ready and the
session is allowed. -/
def subscriptionIssued (authReady : Bool) (authUser : Option AuthUser)
    (adminEmail : Option String) : Bool :=
  authReady && isAllowed authUser adminEmail

/-- The queue data the admin screen presents: empty unless the subscription
was issued, otherwise the pending filter of the delivered window. -/
def presentedQueue (authReady : Bool) (authUser : Option AuthUser)
    (adminEmail : Option String) (delivered : List AppDoc) : List AppDoc :=
  if subscriptionIssued authReady authUser adminEmail then
    snapshotPending delivered
  else []

/-- The admin screen state touched by the snapshot error callback. -/
structure AdminState where
  applications : List AppDoc
  actionError : Option String
deriving DecidableEq, Repr

/-- The snapshot error callback: clear the queue and surface the error
message, defaulting when the message is absent or empty. -/
def onSnapshotErr (errMsg : Option String) (s : AdminState) : AdminState :=
  { applications := [],
    actionError :=
      some (match errMsg with
            | none => "FIRESTORE_SUBSCRIBE_FAILED"
            | some m => if m = "" then "FIRESTORE_SUBSCRIBE_FAILED" else m) }
  -- the prior state contributes nothing: both fields are overwritten

/-! Helper lemmas. -/

/-- Lowercasing moves an upper-case ASCII code point out of the upper-case
range (checked over the relevant finite range). -/
theorem lowAux : ∀ m : Nat, m < 91 → 65 ≤ m →
    (Char.ofNat (m + 32)).toNat = m + 32 := by decide

/-- ASCII lowercasing is idempotent. -/
theorem lowChar_idem (c : Char) : lowChar (lowChar c) = lowChar c := by
  unfold lowChar
  by_cases h : 65 ≤ c.toNat ∧ c.toNat ≤ 90
  · rw [if_pos h]
    have h2 := lowAux c.toNat (by omega) h.1
    rw [if_neg (by omega)]
  · rw [if_neg h, if_neg h]

/-- Idempotence of lowercasing, lifted to character lists. -/
theorem map_lowChar_idem (l : List Char) :
    (l.map lowChar).map lowChar = l.map lowChar := by
  induction l with
  | nil => rfl
  | cons c cs ih => simp [lowChar_idem, ih]

/-- The grouping key of a lowercase handle with a marker prepended is the
handle itself. -/
theorem handleKey_marker_lower (y : String) :
    handleKey ("@" ++ lowerStr y) = lowerStr y := by
  unfold handleKey stripMarker lowerStr
  congr 1
  rw [String.data_append]
  show removeAtFirst (List.map lowChar ('@' :: y.data.map lowChar)) =
    y.data.map lowChar
  rw [List.map_cons]
  show removeAtFirst ('@' :: (y.data.map lowChar).map lowChar) =
    y.data.map lowChar
  rw [show removeAtFirst ('@' :: (y.data.map lowChar).map lowChar) =
        (y.data.map lowChar).map lowChar from by simp [removeAtFirst]]
  exact map_lowChar_idem y.data

/-- A string with a marker prepended is never empty. -/
theorem marker_append_ne_empty (x : String) : "@" ++ x ≠ "" := by
  intro he
  have hd := congrArg String.data he
  rw [String.data_append] at hd
  simp at hd

/-- The fallback-cap expression of handleVerify is never zero. -/
theorem orElseNum_ne_zero (x : Option ℚ) : orElseNum x 0.15 ≠ 0 := by
  cases x with
  | none =>
    show (0.15 : ℚ) ≠ 0
    norm_num
  | some v =>
    show (if v = 0 then (0.15 : ℚ) else v) ≠ 0
    by_cases hv : v = 0
    · rw [if_pos hv]; norm_num
    · rw [if_neg hv]; exact hv

/-- On every success path of handleVerify, the stored session handle is the
normalized handle with the marker prepended when absent. -/
theorem handleVerifyStep_handle_of_ok (lh lw : String) (s : PresaleState)
    (hok : (handleVerifyStep lh lw s).2 = none) :
    (handleVerifyStep lh lw s).1.userData.handle =
      sessionHandle (normalizeHandle lh) := by
  by_cases c1 : normalizeHandle lh = "" ∨ trimStr lw = ""
  · simp [handleVerifyStep, c1] at hok
  · by_cases c2 : isSolanaAddress (trimStr lw) = false
    · simp [handleVerifyStep, c1, c2] at hok
    · cases hjl : jungleLookup (normalizeHandle lh) with
      | none => simp [handleVerifyStep, c1, c2, hjl]
      | some r =>
        by_cases cm : r.wallet = trimStr lw
        · simp [handleVerifyStep, c1, c2, hjl, cm]
        · simp [handleVerifyStep, c1, c2, hjl, cm] at hok

/-! Claim theorems. -/

/-- Claim C9 (confirmed): on every subscription error delivery the
presented queue becomes empty, whatever was presented before, and a failure
description is surfaced. -/
theorem accept_c9_error_clears (msg : Option String) (s : AdminState) :
    (onSnapshotErr msg s).applications = [] ∧
    (onSnapshotErr msg s).actionError ≠ none := by
  constructor
  · rfl
  · cases msg with
    | none => simp [onSnapshotErr]
    | some m => simp [onSnapshotErr]

/-- Claim C10 (confirmed): with the configured admin email absent or empty,
no session is allowed, the gate never reaches the allowed state and the
moderation subscription is never issued. -/
theorem accept_c10_no_admin_email (r : Bool) (u : Option AuthUser)
    (a : Option String) (ha : a = none ∨ a = some "") :
    isAllowed u a = false ∧ subscriptionIssued r u a = false ∧
    gateState r u a ≠ GateState.AUTHENTICATED_ALLOWED := by
  have h1 : isAllowed u a = false := by
    rcases ha with ha | ha <;> subst ha <;>
    · cases u with
      | none => rfl
      | some user =>
        cases user with
        | mk em =>
          cases em with
          | none => rfl
          | some e => by_cases he : e = "" <;> simp [isAllowed, he]
  refine ⟨h1, by simp [subscriptionIssued, h1], ?_⟩
  cases r with
  | false => simp [gateState]
  | true =>
    cases u with
    | none => simp [gateState]
    | some user => simp [gateState, h1]

/-- Witness for C10 at a concrete session and an absent admin email. -/
theorem accept_c10_witness :
    isAllowed (some ⟨some "anyone@example.com"⟩) none = false ∧
    subscriptionIssued true (some ⟨some "anyone@example.com"⟩) none = false ∧
    gateState true (some ⟨some "anyone@example.com"⟩) none ≠
      GateState.AUTHENTICATED_ALLOWED :=
  accept_c10_no_admin_email true (some ⟨some "anyone@example.com"⟩) none
    (Or.inl rfl)

/-- Claim C5 (confirmed): the moderation subscription is issued exactly in
the allowed gate state, and in every other state the subscription is not
issued and the presented queue is empty. -/
theorem accept_c5_gating (r : Bool) (u : Option AuthUser) (a : Option String)
    (d : List AppDoc) :
    (subscriptionIssued r u a = true ↔
      gateState r u a = GateState.AUTHENTICATED_ALLOWED) ∧
    (gateState r u a ≠ GateState.AUTHENTICATED_ALLOWED →
      subscriptionIssued r u a = false ∧ presentedQueue r u a d = []) := by
  have hiff : subscriptionIssued r u a = true ↔
      gateState r u a = GateState.AUTHENTICATED_ALLOWED := by
    cases r with
    | false => simp [subscriptionIssued, gateState]
    | true =>
      cases u with
      | none => simp [subscriptionIssued, isAllowed, gateState]
      | some user =>
        cases hia : isAllowed (some user) a <;>
          simp [subscriptionIssued, gateState, hia]
  refine ⟨hiff, fun hne => ?_⟩
  have hf : subscriptionIssued r u a = false := by
    cases hsub : subscriptionIssued r u a
    · rfl
    · exact absurd (hiff.mp hsub) hne
  exact ⟨hf, by simp [presentedQueue, hf]⟩

/-- Witness for C5 at a concrete unauthenticated session: the gate state is
not allowed, so nothing is subscribed and no data is presented. -/
theorem accept_c5_witness :
    subscriptionIssued true none (some "mod@example.com") = false ∧
    presentedQueue true none (some "mod@example.com")
      [⟨"a1", some "PENDING"⟩] = [] :=
  (accept_c5_gating true none (some "mod@example.com")
    [⟨"a1", some "PENDING"⟩]).2 (by decide)

/-- Claim C4 (confirmed): for snapshot windows whose documents carry one of
the three enumeration statuses, the pending queue contains exactly the
documents of the window whose status is PENDING. -/
theorem accept_c4_pending_exact (docs : List AppDoc) (d : AppDoc)
    (hwf : ∀ x ∈ docs, x.status = some "PENDING" ∨ x.status = some "APPROVED" ∨
        x.status = some "REJECTED") :
    d ∈ snapshotPending docs ↔ d ∈ docs ∧ d.status = some "PENDING" := by
  unfold snapshotPending
  rw [List.mem_filter]
  constructor
  · rintro ⟨hmem, hf⟩
    refine ⟨hmem, ?_⟩
    rcases hwf d hmem with h | h | h
    · exact h
    · simp [effStatus, h] at hf
    · simp [effStatus, h] at hf
  · rintro ⟨hmem, hs⟩
    exact ⟨hmem, by simp [effStatus, hs]⟩

/-- Witness for C4 at a concrete three-document window. -/
theorem accept_c4_witness :
    (⟨"a1", some "PENDING"⟩ : AppDoc) ∈
        snapshotPending
          [⟨"a1", some "PENDING"⟩, ⟨"b2", some "APPROVED"⟩,
           ⟨"c3", some "REJECTED"⟩] ↔
      (⟨"a1", some "PENDING"⟩ : AppDoc) ∈
          [(⟨"a1", some "PENDING"⟩ : AppDoc), ⟨"b2", some "APPROVED"⟩,
           ⟨"c3", some "REJECTED"⟩] ∧
        (⟨"a1", some "PENDING"⟩ : AppDoc).status = some "PENDING" :=
  accept_c4_pending_exact
    [⟨"a1", some "PENDING"⟩, ⟨"b2", some "APPROVED"⟩, ⟨"c3", some "REJECTED"⟩]
    ⟨"a1", some "PENDING"⟩ (by decide)

/-- Claim C6 (corrected): for a non-negative delta the countdown value is
the floor decomposition with the hours taken modulo 24 (whole days are
truncated away by the source, which reduces the delta modulo one day before
dividing); minutes and seconds are as the claim states them; a negative
delta yields the closed sentinel. -/
theorem accept_c6_tick_floor (now deadline : Int) :
    (deadline - now < 0 → tickTimeLeft now deadline = "CLOSED") ∧
    (0 ≤ deadline - now →
      tickRemaining (deadline - now).toNat =
        ((deadline - now).toNat / (1000 * 60 * 60) % 24,
         (deadline - now).toNat / (1000 * 60) % 60,
         (deadline - now).toNat / 1000 % 60)) := by
  constructor
  · intro h
    simp only [tickTimeLeft]
    rw [if_pos h]
  · intro _
    have key1 : ∀ dd : Nat, dd % (1000 * 60 * 60 * 24) / (1000 * 60 * 60) =
        dd / (1000 * 60 * 60) % 24 := fun dd => by
      rw [show (1000 * 60 * 60 * 24 : Nat) = (1000 * 60 * 60) * 24 from by
            norm_num,
          Nat.mod_mul_right_div_self]
    have key2 : ∀ dd : Nat, dd % (1000 * 60 * 60) / (1000 * 60) =
        dd / (1000 * 60) % 60 := fun dd => by
      rw [show (1000 * 60 * 60 : Nat) = (1000 * 60) * 60 from by norm_num,
          Nat.mod_mul_right_div_self]
    have key3 : ∀ dd : Nat, dd % (1000 * 60) / 1000 = dd / 1000 % 60 :=
      fun dd => by
      rw [show (1000 * 60 : Nat) = 1000 * 60 from rfl,
          Nat.mod_mul_right_div_self]
    simp only [tickRemaining, Prod.mk.injEq]
    exact ⟨key1 _, key2 _, key3 _⟩

/-- Witness for C6: a concrete tick one millisecond past the deadline is
closed, and a concrete non-negative delta decomposes as stated. -/
theorem accept_c6_witness :
    tickTimeLeft 90000001 90000000 = "CLOSED" ∧
    tickRemaining 3723000 = (1, 2, 3) := by
  constructor
  · exact (accept_c6_tick_floor 90000001 90000000).1 (by decide)
  · have h := (accept_c6_tick_floor 0 3723000).2 (by decide)
    simpa using h

/-- Counterexample for C6 as stated: at a delta of twenty-five hours the
source computes one remaining hour, not the twenty-five the claimed pure
floor division yields. -/
theorem accept_c6_counterexample :
    tickRemaining 90000000 ≠
      (90000000 / (1000 * 60 * 60), 90000000 / (1000 * 60) % 60,
       90000000 / 1000 % 60) := by decide

/-- Claim C1 (corrected): the append of submitTx succeeds exactly when the
window is open and the proof reference is at least 32 characters long; the
amount is not validated at append time at all, and no amount-range failure
exists in the source. -/
theorem accept_c1_append_guard (tl tx : String) (amt : ℚ)
    (hist : List Submission) (udh : String) (store : LedgerStore)
    (fid : String) (now : Nat) :
    (submitTx tl tx amt hist udh store fid now).isOk = true ↔
      (tl ≠ "CLOSED" ∧ 32 ≤ tx.length) := by
  by_cases h1 : tl = "CLOSED"
  · subst h1
    simp only [submitTx, if_true]
    constructor
    · intro hh
      exact absurd hh (by decide)
    · rintro ⟨hne, -⟩
      exact absurd rfl hne
  · by_cases h2 : tx = "" ∨ tx.length < 32
    · have h3 : tx.length < 32 := by
        rcases h2 with h | h
        · rw [h]; decide
        · exact h
      simp only [submitTx]
      rw [if_neg h1, if_pos h2]
      constructor
      · intro hh
        exact absurd hh (by decide)
      · rintro ⟨-, hlen⟩
        omega
    · simp only [submitTx]
      rw [if_neg h1, if_neg h2]
      push_neg at h2
      constructor
      · intro _
        exact ⟨h1, h2.2⟩
      · intro _
        rfl

/-- Counterexample for C1 as stated: with the recorded cap of the verified
identity equal to 10, an append with amount 100 (far outside the claimed
range) and an open window succeeds; no amount-range failure occurs. -/
theorem accept_c1_counterexample :
    (jungleLookup "monky_king").map JungleRecord.commit = some 10 ∧
    (submitTx "23:59:59" "0123456789012345678901234567890123456789" 100 []
        "@monky_king" (fun _ => []) "uuid-7" 0).isOk = true ∧
    ¬ ((100 : ℚ) ≤ 10) := by
  refine ⟨by with_unfolding_all decide, by with_unfolding_all decide,
    by norm_num⟩

/-- Claim C8 (confirmed): a successful append constructs the PENDING
submission from the fresh id and the current time, prepends it to the
in-memory history, replaces the persisted slice at the grouping key as a
whole with that prepended history, makes the persisted slice grow by
exactly one entry while keeping every pre-existing entry, and leaves the
slices of every other key untouched. -/
theorem accept_c8_append_success (tl tx : String) (amt : ℚ)
    (hist : List Submission) (udh : String) (store : LedgerStore)
    (fid : String) (now : Nat)
    (hsync : hist = store (handleKey udh))
    (hw : tl ≠ "CLOSED") (hp : ¬(tx = "" ∨ tx.length < 32)) :
    submitTx tl tx amt hist udh store fid now =
      .ok (⟨fid, "presale_contribution", tx, amt, "PENDING", now⟩,
           ⟨fid, "presale_contribution", tx, amt, "PENDING", now⟩ :: hist,
           objSet store (handleKey udh)
             (⟨fid, "presale_contribution", tx, amt, "PENDING", now⟩ :: hist)) ∧
    (objSet store (handleKey udh)
        (⟨fid, "presale_contribution", tx, amt, "PENDING", now⟩ :: hist)
        (handleKey udh)).length = (store (handleKey udh)).length + 1 ∧
    (∀ k, k ≠ handleKey udh →
      objSet store (handleKey udh)
        (⟨fid, "presale_contribution", tx, amt, "PENDING", now⟩ :: hist) k =
        store k) := by
  refine ⟨?_, ?_, ?_⟩
  · simp only [submitTx]
    rw [if_neg hw, if_neg hp]
  · show (if handleKey udh = handleKey udh then
        (⟨fid, "presale_contribution", tx, amt, "PENDING", now⟩ :: hist)
      else store (handleKey udh)).length = (store (handleKey udh)).length + 1
    rw [if_pos rfl, hsync]
    simp
  · intro k hk
    show (if k = handleKey udh then
        (⟨fid, "presale_contribution", tx, amt, "PENDING", now⟩ :: hist)
      else store k) = store k
    rw [if_neg hk]

/-- Witness for C8 at a concrete open-window append over an empty store. -/
theorem accept_c8_witness :
    (submitTx "23:59:59" "0123456789012345678901234567890123456789" 1 []
        "@monky_king" (fun _ => []) "uuid-1" 99).isOk = true := by
  have h := accept_c8_append_success "23:59:59"
    "0123456789012345678901234567890123456789" 1 [] "@monky_king"
    (fun _ => []) "uuid-1" 99 rfl (by decide) (by decide)
  rw [h.1]
  rfl

/-- Claim C2 (corrected): for a well-formed verify call whose normalized
handle is unknown to the allocation table, verify succeeds and resolves the
cap to the previously detected session cap when one is present and nonzero,
and to the constant 0.15 otherwise; the resolved cap is never zero and the
call never errors. -/
theorem accept_c2_unknown_fallback (lh lw : String) (s : PresaleState)
    (hh : normalizeHandle lh ≠ "")
    (hfmt : isSolanaAddress (trimStr lw) = true)
    (hun : jungleLookup (normalizeHandle lh) = none) :
    (handleVerifyStep lh lw s).2 = none ∧
    (handleVerifyStep lh lw s).1.view = PresaleView.CONTRIBUTE ∧
    (handleVerifyStep lh lw s).1.detectedCap =
      orElseNum s.userData.actualCommit 0.15 ∧
    (handleVerifyStep lh lw s).1.detectedCap ≠ 0 := by
  have hw : trimStr lw ≠ "" := by
    intro he
    rw [he] at hfmt
    exact absurd hfmt (by decide)
  refine ⟨?_, ?_, ?_, ?_⟩ <;>
    simp [handleVerifyStep, hh, hw, hfmt, hun, orElseNum_ne_zero]

/-- Counterexample for C2 as stated: a session whose previously detected
cap is 5 verifies an unknown handle successfully, and the resolved cap is
that session value 5, not the fixed fallback constant 0.15. -/
theorem accept_c2_counterexample :
    (handleVerifyStep "stranger" "zzzzzzzzzzzzzzzzzzzzzzzzzzzzzzzzzzzzzzzz"
        (presaleInit ⟨"", "", some 5⟩)).2 = none ∧
    (handleVerifyStep "stranger" "zzzzzzzzzzzzzzzzzzzzzzzzzzzzzzzzzzzzzzzz"
        (presaleInit ⟨"", "", some 5⟩)).1.detectedCap = 5 ∧
    ¬ ((5 : ℚ) = 0.15) := by
  refine ⟨by decide, by with_unfolding_all decide, by norm_num⟩

/-- Witness for C2 at a concrete unknown handle and a fresh session. -/
theorem accept_c2_witness :
    (handleVerifyStep "stranger" "zzzzzzzzzzzzzzzzzzzzzzzzzzzzzzzzzzzzzzzz"
        (presaleInit ⟨"", "", none⟩)).2 = none ∧
    (handleVerifyStep "stranger" "zzzzzzzzzzzzzzzzzzzzzzzzzzzzzzzzzzzzzzzz"
        (presaleInit ⟨"", "", none⟩)).1.detectedCap ≠ 0 := by
  have h := accept_c2_unknown_fallback "stranger"
    "zzzzzzzzzzzzzzzzzzzzzzzzzzzzzzzzzzzzzzzz"
    (presaleInit ⟨"", "", none⟩) (by decide) (by decide) (by decide)
  exact ⟨h.1, h.2.2.2⟩

/-- Claim C3 (confirmed): for a well-formed verify call whose normalized
handle is in the allocation table, the call fails with WalletMismatch
exactly when the submitted wallet differs from the recorded one, and on a
mismatch the whole component state, the session identity, the detected cap
and the view included, is returned unchanged with no cap resolved. -/
theorem accept_c3_wallet_mismatch (lh lw : String) (s : PresaleState)
    (r : JungleRecord)
    (hrec : jungleLookup (normalizeHandle lh) = some r)
    (hfmt : isSolanaAddress (trimStr lw) = true) :
    ((handleVerifyStep lh lw s).2 = some VerifyError.WalletMismatch ↔
      r.wallet ≠ trimStr lw) ∧
    (r.wallet ≠ trimStr lw →
      handleVerifyStep lh lw s = (s, some VerifyError.WalletMismatch)) := by
  have hh : normalizeHandle lh ≠ "" := by
    intro he
    rw [he] at hrec
    rw [show jungleLookup "" = none from by decide] at hrec
    exact Option.noConfusion hrec
  have hw : trimStr lw ≠ "" := by
    intro he
    rw [he] at hfmt
    exact absurd hfmt (by decide)
  by_cases cm : r.wallet = trimStr lw
  · constructor
    · constructor
      · intro hmm
        simp [handleVerifyStep, hh, hw, hfmt, hrec, cm] at hmm
      · intro hne
        exact absurd cm hne
    · intro hne
      exact absurd cm hne
  · constructor
    · refine ⟨fun _ => cm, fun _ => ?_⟩
      simp [handleVerifyStep, hh, hw, hfmt, hrec, cm]
    · intro _
      simp [handleVerifyStep, hh, hw, hfmt, hrec, cm]

/-- Witness for C3 at the known handle with a well-formed but differing
wallet: the call reports the mismatch and leaves the state unchanged. -/
theorem accept_c3_witness :
    handleVerifyStep "monky_king" "zzzzzzzzzzzzzzzzzzzzzzzzzzzzzzzzzzzzzzzz"
        (presaleInit ⟨"", "", none⟩) =
      (presaleInit ⟨"", "", none⟩, some VerifyError.WalletMismatch) :=
  (accept_c3_wallet_mismatch "monky_king"
    "zzzzzzzzzzzzzzzzzzzzzzzzzzzzzzzzzzzzzzzz" (presaleInit ⟨"", "", none⟩)
    ⟨"7xKX99kR7xKX99kR7xKX99kR7xKX99kR7xKX99kR", 10.0⟩
    (by with_unfolding_all decide) (by decide)).2 (by decide)

/-- Claim C7 (corrected): after a successful verify whose normalized handle
does not itself begin with a marker, the stored session handle is the
normalized handle with a leading marker prepended (so it is not itself the
marker-free normalized form), and the grouping key used by every subsequent
ledger read and append, which lowercases the session handle and strips its
first marker, is exactly the normalized handle. -/
theorem accept_c7_session_key (lh lw : String) (s : PresaleState)
    (hok : (handleVerifyStep lh lw s).2 = none)
    (hm : startsMarker (normalizeHandle lh) = false) :
    (handleVerifyStep lh lw s).1.userData.handle = "@" ++ normalizeHandle lh ∧
    handleKey ((handleVerifyStep lh lw s).1.userData.handle) =
      normalizeHandle lh ∧
    (∀ (store : LedgerStore) (old : List Submission),
      loadHistory ((handleVerifyStep lh lw s).1.userData.handle) store old =
        store (normalizeHandle lh)) := by
  have h1 := handleVerifyStep_handle_of_ok lh lw s hok
  have h2 : sessionHandle (normalizeHandle lh) = "@" ++ normalizeHandle lh := by
    unfold sessionHandle
    rw [hm]
    simp
  have hkey : handleKey ("@" ++ normalizeHandle lh) = normalizeHandle lh := by
    have h3 := handleKey_marker_lower (trimStr (stripMarker lh))
    simpa [normalizeHandle] using h3
  rw [h1, h2]
  refine ⟨rfl, hkey, fun store old => ?_⟩
  unfold loadHistory
  rw [if_neg (marker_append_ne_empty _), hkey]

/-- Counterexample for C7 as stated: a successful verify of the known
handle stores a session handle that is not the marker-free normalized
handle (the source prepends the marker back). -/
theorem accept_c7_counterexample :
    (handleVerifyStep "monky_king"
        "7xKX99kR7xKX99kR7xKX99kR7xKX99kR7xKX99kR"
        (presaleInit ⟨"", "", none⟩)).2 = none ∧
    (handleVerifyStep "monky_king"
        "7xKX99kR7xKX99kR7xKX99kR7xKX99kR7xKX99kR"
        (presaleInit ⟨"", "", none⟩)).1.userData.handle ≠
      normalizeHandle "monky_king" :=
  ⟨by decide, by decide⟩

/-- Witness for C7 at the known handle with its recorded wallet. -/
theorem accept_c7_witness :
    (handleVerifyStep "monky_king"
        "7xKX99kR7xKX99kR7xKX99kR7xKX99kR7xKX99kR"
        (presaleInit ⟨"", "", none⟩)).1.userData.handle =
      "@" ++ normalizeHandle "monky_king" :=
  (accept_c7_session_key "monky_king"
    "7xKX99kR7xKX99kR7xKX99kR7xKX99kR7xKX99kR"
    (presaleInit ⟨"", "", none⟩) (by decide) (by decide)).1
